import Mathlib

/-!
Verification of the `FusionProfiler` SimObject declaration
(`src/mem/ruby/FusionProfiler.py` of gem5-gpu).

The source file is a purely declarative Python class:

```
from m5.params import *
from m5.SimObject import SimObject

class FusionProfiler(SimObject):
    type = 'FusionProfiler'
    num_sc = Param.Int("number of Shader cores in the GPU")
    ruby_system = Param.RubySystem('')
```

We embed the class body as data: a list of class-level statements, each of
which is an attribute assignment (to a string literal or to a parameter
declaration), a method definition, a piece of control flow, a `raise`, or a
field-validation check.  The `FusionProfiler` body contains only the three
attribute assignments visible in the source.  Semantics that live in the
external m5 framework (the `Param` constructors, binding and validation of
parameter values) are not part of the source under scrutiny; where a claim
needs them they are modelled from the specification and marked as such.
-/

namespace FusionProfilerModel

/-- Values that the configuration framework can bind to a declared parameter:
integers, strings, references to simulator objects (identified by their class
name and an object id), or the unbound marker. -/
inductive PValue where
  | int (n : Int)
  | str (s : String)
  | objRef (className : String) (objId : Nat)
  | unbound
  deriving DecidableEq, Repr

/-- The declared semantic type of a parameter, as written in the source:
`Param.Int` or `Param.RubySystem`. -/
inductive ParamType where
  | pInt
  | pRubySystem
  deriving DecidableEq, Repr

/-- A parameter declaration: its declared type, its description string, and
its default value (if any). -/
structure ParamDecl where
  ptype : ParamType
  desc : String
  defaultVal : Option PValue
  deriving DecidableEq, Repr

/-- Modelled from the spec: the external framework's `Param.Int` constructor.
The fields are "externally validated and bound" (spec, External Interfaces),
so a constructor applied to a single string argument records that string as
the parameter's description and declares no default value. -/
def ParamInt (d : String) : ParamDecl :=
  { ptype := ParamType.pInt, desc := d, defaultVal := none }

/-- Modelled from the spec: the external framework's `Param.RubySystem`
constructor.  As with `ParamInt`, the single string argument is the
description and no default value is declared. -/
def ParamRubySystem (d : String) : ParamDecl :=
  { ptype := ParamType.pRubySystem, desc := d, defaultVal := none }

/-- A value assigned to a class attribute in the body: either a plain string
literal or a parameter declaration. -/
inductive AttrValue where
  | strLit (s : String)
  | param (p : ParamDecl)
  deriving DecidableEq, Repr

/-- A class-level statement.  Besides attribute assignments the embedding has
constructors for the statement kinds the claims rule out: method
definitions, control flow, `raise` statements, and field-validation checks.
None of these occur in the `FusionProfiler` body. -/
inductive ClassStmt where
  | attrAssign (name : String) (v : AttrValue)
  | methodDef (name : String)
  | controlFlow (descr : String)
  | raiseStmt (msg : String)
  | validator (field : String) (check : PValue → Bool)

/-- The base class named in the `class FusionProfiler(SimObject):` header. -/
def FusionProfilerBase : String := "SimObject"

/-- The body of the `FusionProfiler` class, statement by statement, exactly
as it appears in the source. -/
def FusionProfilerBody : List ClassStmt :=
  [ ClassStmt.attrAssign "type" (AttrValue.strLit "FusionProfiler"),
    ClassStmt.attrAssign "num_sc"
      (AttrValue.param (ParamInt "number of Shader cores in the GPU")),
    ClassStmt.attrAssign "ruby_system"
      (AttrValue.param (ParamRubySystem "")) ]

/-- Is this statement a plain attribute assignment? -/
def isAttrAssign : ClassStmt → Bool
  | ClassStmt.attrAssign _ _ => true
  | _ => false

/-- Is this statement a method definition? -/
def isMethodDef : ClassStmt → Bool
  | ClassStmt.methodDef _ => true
  | _ => false

/-- Is this statement control flow? -/
def isControlFlow : ClassStmt → Bool
  | ClassStmt.controlFlow _ => true
  | _ => false

/-- Is this statement a `raise`? -/
def isRaise : ClassStmt → Bool
  | ClassStmt.raiseStmt _ => true
  | _ => false

/-- The names of the attributes a class body assigns, in order. -/
def attrNames : List ClassStmt → List String
  | [] => []
  | ClassStmt.attrAssign n _ :: rest => n :: attrNames rest
  | _ :: rest => attrNames rest

/-- The names of the parameter fields a class body declares, in order. -/
def paramNames : List ClassStmt → List String
  | [] => []
  | ClassStmt.attrAssign n (AttrValue.param _) :: rest => n :: paramNames rest
  | _ :: rest => paramNames rest

/-- The names of the methods a class body defines, in order. -/
def methodNames : List ClassStmt → List String
  | [] => []
  | ClassStmt.methodDef n :: rest => n :: methodNames rest
  | _ :: rest => methodNames rest

/-- Look up the attribute value a body assigns to a given name (first
assignment wins). -/
def attrOf : List ClassStmt → String → Option AttrValue
  | [], _ => none
  | ClassStmt.attrAssign n v :: rest, target =>
      if n = target then some v else attrOf rest target
  | _ :: rest, target => attrOf rest target

/-- Look up the parameter declaration a body binds to a given field name. -/
def paramDeclOf (body : List ClassStmt) (target : String) : Option ParamDecl :=
  match attrOf body target with
  | some (AttrValue.param p) => some p
  | _ => none

/-- Execute a class body at class-definition time: process each statement in
order, collecting attribute assignments into an attribute list and failing
with the message of the first `raise` statement reached.  Method
definitions, control flow and validators contribute nothing at definition
time. -/
def runBody : List ClassStmt → Except String (List (String × AttrValue))
  | [] => Except.ok []
  | ClassStmt.raiseStmt msg :: _ => Except.error msg
  | ClassStmt.attrAssign n v :: rest =>
      match runBody rest with
      | Except.ok attrs => Except.ok ((n, v) :: attrs)
      | Except.error e => Except.error e
  | _ :: rest => runBody rest

/-- The validation checks a class body installs for a given field. -/
def validatorsFor (body : List ClassStmt) (field : String) :
    List (PValue → Bool) :=
  match body with
  | [] => []
  | ClassStmt.validator f c :: rest =>
      if f = field then c :: validatorsFor rest field
      else validatorsFor rest field
  | _ :: rest => validatorsFor rest field

/-- Run every validation check the class body itself installs for a field
against a supplied value; error on the first failing check. -/
def fileValidation (body : List ClassStmt) (field : String) (v : PValue) :
    Except String Unit :=
  if (validatorsFor body field).all (fun c => c v) then Except.ok ()
  else Except.error "value rejected by declaration-level validation"

/-- Modelled from the spec: the external framework binds a value to a
declared parameter only if it conforms to the declared type — an integer for
an integer parameter, a reference to a coherence-system (`RubySystem`)
object for a `Param.RubySystem` parameter. -/
def conformsTo : ParamType → PValue → Bool
  | ParamType.pInt, PValue.int _ => true
  | ParamType.pRubySystem, PValue.objRef cn _ => cn = "RubySystem"
  | _, _ => false

/-- A constructed `FusionProfiler` instance: one bound value per declared
parameter field. -/
structure FusionProfilerInstance where
  num_sc : Int
  ruby_system : PValue
  deriving DecidableEq, Repr

/-- Modelled from the spec: the invariant the external framework enforces on
a constructed instance — `num_sc` must be a non-negative integer and
`ruby_system` must reference a valid, externally-constructed
coherence-system instance (spec, Data Model invariant). -/
def validInstance (i : FusionProfilerInstance) : Bool :=
  decide (0 ≤ i.num_sc) && conformsTo ParamType.pRubySystem i.ruby_system

/-- Resolve the value of a parameter for an instantiation: a supplied
binding if present, otherwise the declared default.  A parameter with no
default and no supplied binding stays unresolved. -/
def boundOrDefault (p : ParamDecl) (supplied : Option PValue) : Option PValue :=
  match supplied with
  | some v => some v
  | none => p.defaultVal

/-- C1: the FusionProfiler class body declares exactly the two parameter
fields `num_sc` and `ruby_system`; besides its type name it introduces
nothing else, and it contains no methods, algorithmic logic, or control
flow. -/
theorem fusionProfiler_body_exactly_two_fields :
    paramNames FusionProfilerBody = ["num_sc", "ruby_system"] ∧
    attrNames FusionProfilerBody = ["type", "num_sc", "ruby_system"] ∧
    FusionProfilerBody.all isAttrAssign = true ∧
    methodNames FusionProfilerBody = [] ∧
    FusionProfilerBody.all (fun s => !isControlFlow s) = true :=
  ⟨rfl, rfl, rfl, rfl, rfl⟩

/-- C2: for every FusionProfiler instance accepted by the (spec-modelled)
framework invariant, the value bound to `num_sc` is a non-negative integer;
no valid instance carries a negative `num_sc`. -/
theorem fusionProfiler_valid_num_sc_nonneg (i : FusionProfilerInstance)
    (h : validInstance i = true) : 0 ≤ i.num_sc := by
  have h1 : decide (0 ≤ i.num_sc) = true := by
    have := (Bool.and_eq_true _ _).mp h
    exact this.1
  exact of_decide_eq_true h1

/-- Witness for C2: the theorem applied to a concrete valid instance. -/
theorem fusionProfiler_valid_num_sc_nonneg_witness :
    validInstance
      (FusionProfilerInstance.mk 3 (PValue.objRef "RubySystem" 0)) = true ∧
    (0 : Int) ≤
      (FusionProfilerInstance.mk 3 (PValue.objRef "RubySystem" 0)).num_sc :=
  ⟨by decide, fusionProfiler_valid_num_sc_nonneg _ (by decide)⟩

/-- C3: the declaration itself performs no validation: executing the class
body raises no error, the body contains no `raise` statement and installs no
validation check, and for every field name and every supplied value the
declaration-level validation succeeds. -/
theorem fusionProfiler_no_file_validation :
    runBody FusionProfilerBody =
      Except.ok
        [("type", AttrValue.strLit "FusionProfiler"),
         ("num_sc",
          AttrValue.param (ParamInt "number of Shader cores in the GPU")),
         ("ruby_system", AttrValue.param (ParamRubySystem ""))] ∧
    FusionProfilerBody.all (fun s => !isRaise s) = true ∧
    ∀ (field : String) (v : PValue),
      fileValidation FusionProfilerBody field v = Except.ok () :=
  ⟨rfl, rfl, fun _ _ => rfl⟩

/-- C4: the field `num_sc` is declared with the integer parameter type
(`Param.Int`). -/
theorem fusionProfiler_num_sc_declared_int :
    (paramDeclOf FusionProfilerBody "num_sc").map ParamDecl.ptype =
      some ParamType.pInt := by
  decide

/-- C5: the field `ruby_system` is declared with the coherence-system
parameter type (`Param.RubySystem`), and every value the (spec-modelled)
framework binds to a parameter of that type is a reference to a
coherence-system (`RubySystem`) instance. -/
theorem fusionProfiler_ruby_system_declared_ref :
    (paramDeclOf FusionProfilerBody "ruby_system").map ParamDecl.ptype =
      some ParamType.pRubySystem ∧
    ∀ v : PValue, conformsTo ParamType.pRubySystem v = true →
      ∃ objId : Nat, v = PValue.objRef "RubySystem" objId := by
  constructor
  · decide
  · intro v h
    cases v with
    | int n => simp [conformsTo] at h
    | str s => simp [conformsTo] at h
    | unbound => simp [conformsTo] at h
    | objRef cn objId =>
        have hcn : cn = "RubySystem" := by
          have : decide (cn = "RubySystem") = true := h
          exact of_decide_eq_true this
        exact ⟨objId, by rw [hcn]⟩

/-- Witness for C5: the theorem applied to a concrete conforming value. -/
theorem fusionProfiler_ruby_system_declared_ref_witness :
    conformsTo ParamType.pRubySystem (PValue.objRef "RubySystem" 7) = true ∧
    ∃ objId : Nat,
      PValue.objRef "RubySystem" 7 = PValue.objRef "RubySystem" objId :=
  ⟨by decide, fusionProfiler_ruby_system_declared_ref.2 _ (by decide)⟩

/-- C6: the class's `type` attribute equals the string "FusionProfiler". -/
theorem fusionProfiler_type_attribute :
    attrOf FusionProfilerBody "type" =
      some (AttrValue.strLit "FusionProfiler") := by
  decide

/-- C7: the file defines no operation at all, in particular none that
mutates `num_sc` or `ruby_system`: the body defines no method and every
statement is a plain attribute assignment. -/
theorem fusionProfiler_no_mutating_operation :
    methodNames FusionProfilerBody = [] ∧
    FusionProfilerBody.all isAttrAssign = true :=
  ⟨rfl, rfl⟩

/-- C8: neither parameter declares a default value — the single string
argument of each constructor is the description, not a default — so with no
externally supplied binding a parameter resolves to no value at all. -/
theorem fusionProfiler_no_default_values :
    (paramDeclOf FusionProfilerBody "num_sc").map ParamDecl.defaultVal =
      some none ∧
    (paramDeclOf FusionProfilerBody "ruby_system").map ParamDecl.defaultVal =
      some none ∧
    (∀ d : String,
      (ParamInt d).defaultVal = none ∧ (ParamInt d).desc = d ∧
      (ParamRubySystem d).defaultVal = none ∧ (ParamRubySystem d).desc = d) ∧
    (∀ d : String,
      boundOrDefault (ParamInt d) none = none ∧
      boundOrDefault (ParamRubySystem d) none = none) :=
  ⟨by decide, by decide, fun _ => ⟨rfl, rfl, rfl, rfl⟩, fun _ => ⟨rfl, rfl⟩⟩

/-- C9: FusionProfiler is declared as a direct subclass of SimObject. -/
theorem fusionProfiler_base_class :
    FusionProfilerBase = "SimObject" :=
  rfl

/-- C10: the declared description of `num_sc` equals
"number of Shader cores in the GPU" and the declared description of
`ruby_system` equals the empty string. -/
theorem fusionProfiler_param_descriptions :
    (paramDeclOf FusionProfilerBody "num_sc").map ParamDecl.desc =
      some "number of Shader cores in the GPU" ∧
    (paramDeclOf FusionProfilerBody "ruby_system").map ParamDecl.desc =
      some "" := by
  exact ⟨by decide, by decide⟩

end FusionProfilerModel
